import Mathlib

/-!
Verification of the voice_chat_bot form-filling assistant
(`voice_assistant_app`): a shallow embedding of the dialogue workflow in
`langgraph_flow/nodes.py`, the turn driver `process_user_input` in
`langgraph_flow/graph.py`, the form schema `schemas.py` (Pydantic model
`UserFormData`) and the extraction adapter
`langchain_components/llm_provider.py`, together with theorems settling the
specification's claims about them.

Python dictionaries holding field values are embedded as association lists
with Python's dict semantics (update in place keeps the key's position, a new
key is appended); Python values that can appear as field values (str, int,
list of str, None) are the inductive `Val`; the workflow state dictionary is
the structure `GState`.  Reads such as `state.get(k, default)` whose key is
always written before it is read in the modelled paths are embedded as plain
record fields.  The external LLM backend is abstracted as an `LLMOutcome`
(the call either raises or returns a response string) and JSON parsing of the
response as a parameter `jparse : String -> Option ExtractionResult`; both
are threaded through the nodes exactly where the source consults them.
-/

namespace VoiceChatBot

/-- The ten form fields of `UserFormData` (schemas.py, lines 5-68), in
declaration order. -/
inductive FieldName
  | full_name
  | email
  | age
  | occupation
  | experience_level
  | preferred_language
  | project_interests
  | availability_per_week
  | start_date
  | additional_notes
deriving DecidableEq, Repr

/-- The field order: `list(UserFormData.model_json_schema()['properties'].keys())`,
i.e. declaration order of the Pydantic model. -/
def fieldOrder : List FieldName :=
  [.full_name, .email, .age, .occupation, .experience_level,
   .preferred_language, .project_interests, .availability_per_week,
   .start_date, .additional_notes]

/-- The schema's required fields: every field declared with `Field(...)` (no
default), i.e. all but `additional_notes` (which defaults to `None`). This is
`UserFormData.model_json_schema()['required']`. -/
def requiredFields : List FieldName :=
  [.full_name, .email, .age, .occupation, .experience_level,
   .preferred_language, .project_interests, .availability_per_week,
   .start_date]

/-- The field's name as the Python string used in keys and messages. -/
def FieldName.pyName : FieldName → String
  | .full_name => "full_name"
  | .email => "email"
  | .age => "age"
  | .occupation => "occupation"
  | .experience_level => "experience_level"
  | .preferred_language => "preferred_language"
  | .project_interests => "project_interests"
  | .availability_per_week => "availability_per_week"
  | .start_date => "start_date"
  | .additional_notes => "additional_notes"

/-- The `description` of each field in schemas.py. -/
def fieldDescription : FieldName → String
  | .full_name => "User's full name"
  | .email => "User's email address"
  | .age => "User's age in years"
  | .occupation => "User's current job or profession"
  | .experience_level => "User's experience level in their field"
  | .preferred_language => "User's preferred programming language"
  | .project_interests => "List of project interests or goals"
  | .availability_per_week => "Hours available per week for the project"
  | .start_date => "Preferred project start date"
  | .additional_notes => "Any additional information or special requirements"

/-- Splitting a character list at every occurrence of a separator character
(Python `s.split(sep)` for a one-character separator: `"".split(sep)` is
`[""]`, adjacent separators give empty pieces). -/
def splitOnChar (sep : Char) : List Char → List (List Char)
  | [] => [[]]
  | c :: rest =>
    if c = sep then [] :: splitOnChar sep rest
    else
      match splitOnChar sep rest with
      | [] => [[c]]
      | h :: t => (c :: h) :: t

/-- Python `s.split(sep)` for a one-character separator, on strings. -/
def splitStr (sep : Char) (s : String) : List String :=
  (splitOnChar sep s.data).map (fun cs => ⟨cs⟩)

/-- The whitespace Python `str.strip()` removes. -/
def isSpaceChar (c : Char) : Bool :=
  c = ' ' || c = '\t' || c = '\n' || c = '\r'

def dropLeadingSpace : List Char → List Char
  | [] => []
  | c :: rest => if isSpaceChar c then dropLeadingSpace rest else c :: rest

/-- Python `s.strip()`. -/
def trimStr (s : String) : String :=
  ⟨(dropLeadingSpace ((dropLeadingSpace s.data).reverse)).reverse⟩

/-- Python `sep.join(xs)`. -/
def joinWith (sep : String) : List String → String
  | [] => ""
  | [x] => x
  | x :: rest => x ++ sep ++ joinWith sep rest

/-- The numeric value of a list of decimal digit characters. -/
def natOfDigits (cs : List Char) : Nat :=
  cs.foldl (fun acc c => acc * 10 + (c.toNat - 48)) 0

/-- All characters are decimal digits and the string is nonempty. -/
def allDigits (s : String) : Bool :=
  s ≠ "" && s.data.all Char.isDigit

/-- Python `int(s)` on a string, as Pydantic's lax str-to-int coercion and the
mapping node's `int(...)` use it: surrounding whitespace stripped, an optional
sign, then decimal digits; `none` when the conversion raises. -/
def pyIntOfStr (s : String) : Option Int :=
  match (trimStr s).data with
  | [] => none
  | '+' :: rest =>
    if rest ≠ [] && rest.all Char.isDigit then some ((natOfDigits rest : Nat) : Int)
    else none
  | '-' :: rest =>
    if rest ≠ [] && rest.all Char.isDigit then some (-((natOfDigits rest : Nat) : Int))
    else none
  | cs =>
    if cs.all Char.isDigit then some ((natOfDigits cs : Nat) : Int) else none

/-- Python `s.lower()` (ASCII case folding as `Char.toLower`). -/
def lowerStr (s : String) : String :=
  ⟨s.data.map Char.toLower⟩

/-- A Python value that can stand in the workflow state as a field value:
a string, an int, a list of strings, or `None`. -/
inductive Val
  | vStr (s : String)
  | vInt (n : Int)
  | vList (xs : List String)
  | vNone
deriving DecidableEq, Repr

/-- Python `str(...)` of a `Val`, as used inside the assistant's f-string
messages (`str` of a list renders as `['a', 'b']`). -/
def Val.pyStr : Val → String
  | .vStr s => s
  | .vInt n => toString n
  | .vList xs => "[" ++ joinWith ", " (xs.map (fun s => "'" ++ s ++ "'")) ++ "]"
  | .vNone => "None"

/-- Python truthiness of a `Val` (`bool(v)`), used by the driver's completion
check guard. -/
def pyTruthy : Val → Bool
  | .vStr s => s ≠ ""
  | .vInt n => n ≠ 0
  | .vList xs => xs ≠ []
  | .vNone => false

/-- Dict lookup on an association list (Python `d.get(k)`). -/
def dLookup (m : List (FieldName × Val)) (k : FieldName) : Option Val :=
  match m with
  | [] => none
  | (k1, v) :: rest => if k1 = k then some v else dLookup rest k

/-- Python dict update `d[k] = v` / `{**d, k: v}`: an existing key keeps its
position, a new key is appended. -/
def dInsert (m : List (FieldName × Val)) (k : FieldName) (v : Val) : List (FieldName × Val) :=
  match m with
  | [] => [(k, v)]
  | (k1, v1) :: rest => if k1 = k then (k, v) :: rest else (k1, v1) :: dInsert rest k v

/-- Python `x in l` membership for field-name lists. -/
def listHas (l : List FieldName) (f : FieldName) : Bool :=
  match l with
  | [] => false
  | x :: rest => if x = f then true else listHas rest f

/-- Character class `[a-zA-Z0-9_.+-]` of the email pattern's local part. -/
def emailLocalChar (c : Char) : Bool :=
  c.isAlphanum || c = '_' || c = '.' || c = '+' || c = '-'

/-- Character class `[a-zA-Z0-9-]` of the email pattern's domain label. -/
def emailDomainChar (c : Char) : Bool :=
  c.isAlphanum || c = '-'

/-- Character class `[a-zA-Z0-9-.]` of the email pattern's tail. -/
def emailTailChar (c : Char) : Bool :=
  c.isAlphanum || c = '-' || c = '.'

/-- The schema's email pattern from schemas.py:
the regex anchored `[a-zA-Z0-9_.+-]+ at [a-zA-Z0-9-]+ dot [a-zA-Z0-9-.]+`.
Since the middle class excludes the dot, a match splits the domain at its
first dot. -/
def emailOk (s : String) : Bool :=
  match splitStr '@' s with
  | [loc, dom] =>
    loc ≠ "" && loc.data.all emailLocalChar &&
    (match splitStr '.' dom with
     | b :: rest =>
       b ≠ "" && b.data.all emailDomainChar && rest ≠ [] &&
       (let c := joinWith "." rest
        c ≠ "" && c.data.all emailTailChar)
     | [] => false)
  | _ => false

def isLeapYear (y : Nat) : Bool :=
  (y % 4 = 0 && y % 100 ≠ 0) || y % 400 = 0

def daysInMonth (y m : Nat) : Nat :=
  if m = 2 then (if isLeapYear y then 29 else 28)
  else if m = 4 || m = 6 || m = 9 || m = 11 then 30
  else 31

/-- Pydantic's parsing of a `date` field from a string: ISO `YYYY-MM-DD` with
a valid calendar date. -/
def isoDateOk (s : String) : Bool :=
  match splitStr '-' s with
  | [ys, ms, ds] =>
    ys.length = 4 && ms.length = 2 && ds.length = 2 &&
    allDigits ys && allDigits ms && allDigits ds &&
    (let y := natOfDigits ys.data
     let m := natOfDigits ms.data
     let d := natOfDigits ds.data
     1 ≤ y && 1 ≤ m && m ≤ 12 && 1 ≤ d && d ≤ daysInMonth y m)
  | _ => false

def experienceLevels : List String :=
  ["Beginner", "Intermediate", "Advanced", "Expert"]

def preferredLanguages : List String :=
  ["Python", "JavaScript", "Java", "C++", "Go", "Rust", "Other"]

/-- Python `x in l` for string lists. -/
def listHasStr (l : List String) (x : String) : Bool :=
  match l with
  | [] => false
  | y :: rest => if y = x then true else listHasStr rest x

/-- Whether one concrete value is accepted for one field by the Pydantic model
`UserFormData` (schemas.py): the declared type with Pydantic's lax coercion
(digit strings for the int fields, ISO strings for the date field), the
declared constraints (length, range, pattern, enum, list size) and the
`validate_project_interests` validator (each interest 2-100 characters). -/
def fieldValid : FieldName → Val → Bool
  | .full_name, .vStr s => 2 ≤ s.length && s.length ≤ 100
  | .full_name, _ => false
  | .email, .vStr s => emailOk s
  | .email, _ => false
  | .age, .vInt n => 18 ≤ n && n ≤ 120
  | .age, .vStr s =>
    (match pyIntOfStr s with
     | some n => 18 ≤ n && n ≤ 120
     | none => false)
  | .age, _ => false
  | .occupation, .vStr s => 2 ≤ s.length && s.length ≤ 100
  | .occupation, _ => false
  | .experience_level, .vStr s => listHasStr experienceLevels s
  | .experience_level, _ => false
  | .preferred_language, .vStr s => listHasStr preferredLanguages s
  | .preferred_language, _ => false
  | .project_interests, .vList xs =>
    1 ≤ xs.length && xs.length ≤ 5 &&
    xs.all (fun it => 2 ≤ it.length && it.length ≤ 100)
  | .project_interests, _ => false
  | .availability_per_week, .vInt n => 1 ≤ n && n ≤ 168
  | .availability_per_week, .vStr s =>
    (match pyIntOfStr s with
     | some n => 1 ≤ n && n ≤ 168
     | none => false)
  | .availability_per_week, _ => false
  | .start_date, .vStr s => isoDateOk s
  | .start_date, _ => false
  | .additional_notes, .vNone => true
  | .additional_notes, .vStr s => s.length ≤ 500
  | .additional_notes, _ => false

/-- `UserFormData(**data)` succeeding: every required field present and every
present value accepted for its field (instantiating the model validates the
whole model, so a missing required field is a `ValidationError`). -/
def validateUserFormData (data : List (FieldName × Val)) : Bool :=
  requiredFields.all (fun f => (dLookup data f).isSome) &&
  data.all (fun p => fieldValid p.1 p.2)

/-- Speaker of a transcript entry (the `role` key of a message dict). -/
inductive Role
  | user
  | assistant
deriving DecidableEq, Repr

/-- One transcript entry: a dict with a role and a content string. -/
structure Msg where
  role : Role
  content : String
deriving DecidableEq, Repr

/-- The intent tags the extraction contract fixes
(`"provide_value" | "confirm" | "deny" | "request_help" | "request_skip" | "other"`). -/
inductive Intent
  | provide_value
  | confirm
  | deny
  | request_help
  | request_skip
  | other
deriving DecidableEq, Repr

/-- The structured extraction result dict: intent, extracted value (possibly
null), confidence and reasoning. -/
structure ExtractionResult where
  intent : Intent
  extracted_value : Option Val
  confidence : ℚ
  reasoning : String
deriving DecidableEq, Repr

/-- What Pydantic reports when a `ValidationError` is raised; its exact text is
library-generated and nothing in the workflow inspects it, so it is embedded
as this marker string. -/
def validationErrorText : String := "ValidationError"

/-- The `valid_options` hints `input_validation_node` stores for the error
handler: the enum's allowed values, or a human-readable constraint hint for
`project_interests`. -/
inductive ValidOptions
  | opts (xs : List String)
  | hint (s : String)
deriving DecidableEq, Repr

/-- The `error_details` dict `error_handling_node` stores. -/
structure ErrorDetails where
  error_explanation : String
  valid_examples : List String
  guidance_message : String
deriving DecidableEq, Repr

/-- The workflow state dict (`GraphState` in graph.py), restricted to the keys
the embedded nodes read or write.  `current_field` is always one of the ten
schema field names in every reachable state (the code would raise on
`field_order.index` otherwise), so it is embedded as a `FieldName`; it is a
nonempty string, hence truthy wherever the source tests it.  Keys that can be
absent before first write are `Option`s or carry their read-default. -/
structure GState where
  initialized : Bool
  user_input : String
  transcribed_text : Option String
  transcription_success : Bool
  transcription_error : Option String
  current_field : FieldName
  completed_fields : List FieldName
  field_values : List (FieldName × Val)
  confirmation_state : Bool
  extraction_attempts : Nat
  is_complete : Bool
  messages : List Msg
  extraction_result : Option ExtractionResult
  extraction_success : Bool
  extraction_error : Option String
  current_extracted_value : Option Val
  validation_success : Bool
  validation_error : Option String
  valid_options : Option ValidOptions
  error_details : Option ErrorDetails
  final_output : Option (List (FieldName × Val))
  completion_message_added : Bool
  workflow_complete : Bool
deriving DecidableEq, Repr

/-- `state.get('extraction_result', {}).get('intent')`. -/
def GState.intentOf (st : GState) : Option Intent :=
  st.extraction_result.map ExtractionResult.intent

/-- The greeting `start_node` seeds the transcript with. -/
def greetingText : String :=
  "Hello! I'm your voice assistant, here to help you complete this form. Let's start with your full name. What is your full name?"

/-- The per-field `error_explanation` of `error_handling_node` (occupation and
additional_notes fall to the generic template). -/
def errorExplanation : FieldName → String
  | .full_name => "Your name should be between 2 and 100 characters."
  | .email => "Please provide a valid email address."
  | .age => "Your age should be a number between 18 and 120."
  | .experience_level => "Please select one of the valid experience levels."
  | .preferred_language => "Please select one of the valid programming languages."
  | .project_interests => "Please provide 1 to 5 project interests."
  | .availability_per_week => "Please provide a number between 1 and 168 for weekly availability hours."
  | .start_date => "Please provide a valid date in YYYY-MM-DD format."
  | f => "The provided value for " ++ f.pyName ++ " is invalid."

/-- The per-field `valid_examples` of `error_handling_node`. -/
def validExamples : FieldName → List String
  | .full_name => ["John Smith", "Maria Rodriguez", "Ahmed Khan"]
  | .email => ["user@example.com", "name.surname@company.co.uk"]
  | .age => ["30", "45", "62"]
  | .experience_level => ["Beginner", "Intermediate", "Advanced", "Expert"]
  | .preferred_language => ["Python", "JavaScript", "Java", "C++", "Go", "Rust", "Other"]
  | .project_interests => ["Web Development", "Machine Learning, Data Analysis", "Game Development, Mobile Apps, Cloud Computing"]
  | .availability_per_week => ["10", "20", "40"]
  | .start_date => ["2025-06-01", "2025-07-15", "2025-08-30"]
  | _ => ["Please check the requirements and try again."]

/-- The guidance message `error_handling_node` appends (same text for every
attempt count: the node never reads `extraction_attempts`). -/
def guidanceMessage (f : FieldName) : String :=
  "I'm having trouble understanding your " ++ f.pyName ++ ". " ++
    errorExplanation f ++ " Could you please try again?"

/-- The per-field help message of `field_mapping_node`'s `request_help` branch
(occupation and additional_notes fall to the generic template). -/
def helpMessage : FieldName → String
  | .full_name => "I need your full name. For example, 'John Smith' or 'Maria Rodriguez'."
  | .email => "I need a valid email address where you can be contacted. For example, 'user@example.com'."
  | .age => "Please provide your age as a number between 18 and 120."
  | .experience_level => "Please select your experience level from: Beginner, Intermediate, Advanced, or Expert."
  | .preferred_language => "Please select your preferred programming language from: Python, JavaScript, Java, C++, Go, Rust, or Other."
  | .project_interests => "Please list between 1 and 5 project areas you're interested in. For example, 'Web Development, Machine Learning'."
  | .availability_per_week => "How many hours per week can you dedicate to the project? Please provide a number between 1 and 168."
  | .start_date => "When would you like to start? Please provide a date in YYYY-MM-DD format, for example, '2025-06-01'."
  | f => "I need information about " ++ fieldDescription f ++ ". Could you please provide that?"

/-- The prompt for the next field in the confirm-success path of
`field_mapping_node` (customized for four fields, otherwise built from the
field description). -/
def nextFieldPrompt : FieldName → String
  | .experience_level => "Now, please tell me your experience level. Choose from: Beginner, Intermediate, Advanced, or Expert."
  | .preferred_language => "What's your preferred programming language? Options are: Python, JavaScript, Java, C++, Go, Rust, or Other."
  | .project_interests => "What projects are you interested in? You can list between 1 and 5 interests."
  | .start_date => "When would you like to start? Please provide a date in YYYY-MM-DD format."
  | f => "Now, please tell me " ++ fieldDescription f ++ "."

/-- The prompt for the next field in the skip path of `field_mapping_node`
(always built from the field description). -/
def skipNextFieldPrompt (f : FieldName) : String :=
  "Now, please tell me " ++ fieldDescription f ++ "."

def savedMessage (f : FieldName) (v : Val) : String :=
  "Great! I've saved your " ++ f.pyName ++ ": " ++ v.pyStr

def denyRetryMessage (f : FieldName) : String :=
  "I apologize for the misunderstanding. Let's try again. What is your " ++ f.pyName ++ "?"

def confirmPromptMessage (f : FieldName) (v : Option Val) : String :=
  "I've captured that your " ++ f.pyName ++ " is: " ++ (v.map Val.pyStr).getD "None" ++ ". Is that correct?"

def skipMessage (f : FieldName) : String :=
  "No problem, we can skip the " ++ f.pyName ++ " field."

def cannotSkipMessage (f : FieldName) : String :=
  "I'm sorry, but " ++ f.pyName ++ " is a required field and cannot be skipped. Could you please provide this information?"

/-- The completion message wrapped around a summary, shared verbatim by the
two completion blocks of `field_mapping_node` and by
`form_completion_check_node`. -/
def completionText (summary : String) : String :=
  "Excellent! We've completed all the required information. Here's a summary of what you've provided:\n\n" ++
    summary ++
    "\n\nThank you for providing all this information. The form has been submitted successfully."

/-- The summary of the confirm-success completion block in
`field_mapping_node` (line 415): every entry of `field_values`, `None`
included. -/
def summaryAll (fv : List (FieldName × Val)) : String :=
  joinWith "\n" (fv.map (fun p => "- " ++ p.1.pyName ++ ": " ++ p.2.pyStr))

/-- The summary of the skip completion block in `field_mapping_node`
(line 509): only the non-`None` entries. -/
def summaryNonNull (fv : List (FieldName × Val)) : String :=
  joinWith "\n"
    ((fv.filter (fun p => p.2 ≠ Val.vNone)).map
      (fun p => "- " ++ p.1.pyName ++ ": " ++ p.2.pyStr))

/-- The summary of `form_completion_check_node` (lines 568-575): over
`final_output`, with a list-valued `project_interests` joined by commas. -/
def summaryFinal (fo : List (FieldName × Val)) : String :=
  joinWith "\n"
    (fo.map (fun p =>
      match p.1, p.2 with
      | .project_interests, .vList xs => "- project_interests: " ++ joinWith ", " xs
      | f, v => "- " ++ f.pyName ++ ": " ++ v.pyStr))

/-! ## The nodes of `langgraph_flow/nodes.py` -/

/-- `start_node`: first-turn initialization, seeding the greeting. -/
def startNode (st : GState) : GState :=
  if st.initialized = true then st
  else
    { st with
      initialized := true
      current_field := .full_name
      completed_fields := []
      field_values := []
      confirmation_state := false
      extraction_attempts := 0
      is_complete := false
      messages := [⟨.assistant, greetingText⟩] }

/-- `voice_input_node`: a nonempty `user_input` becomes the transcription and
is appended to the transcript; empty input is a transcription failure. -/
def voiceInputNode (st : GState) : GState :=
  if st.user_input ≠ "" then
    { st with
      transcribed_text := some st.user_input
      transcription_success := true
      transcription_error := none
      messages := st.messages ++ [⟨.user, st.user_input⟩] }
  else
    { st with
      transcribed_text := none
      transcription_success := false
      transcription_error := some "No input provided" }

/-- The external LLM call's outcome at the `chain.invoke` boundary in
`LLMProvider.extract_intent_and_value`: either the call raises, or it returns
a response whose `content` is a string. -/
inductive LLMOutcome
  | raises (msg : String)
  | response (s : String)
deriving DecidableEq, Repr

/-- What `extract_intent_and_value` hands back to the caller: the raw content
string on success, or — when the call raised — the structured fallback dict
with intent `other`, null value, confidence 0 and the exception's text as
reasoning (llm_provider.py, lines 118-131). -/
inductive PyExtraction
  | asStr (s : String)
  | asDict (r : ExtractionResult)
deriving DecidableEq, Repr

def extractIntentAndValue : LLMOutcome → PyExtraction
  | .response s => .asStr s
  | .raises msg => .asDict ⟨.other, none, 0, "Error occurred during extraction: " ++ msg⟩

/-- The substitute result `intent_entity_extraction_node` builds when
`json.loads` fails on the LLM's string (nodes.py, lines 143-148). -/
def parseFailureResult : ExtractionResult :=
  ⟨.other, none, 0, "Failed to parse LLM result"⟩

/-- The fixed affirmative tokens of the confirmation short-circuit. -/
def affirmativeWords : List String :=
  ["yes", "correct", "right", "sure", "yeah", "yep", "yup"]

/-- Python substring containment `needle in hay`. -/
def hasSubstr (needle hay : String) : Bool :=
  hay.data.tails.any (fun t => needle.data.isPrefixOf t)

/-- `any(word in text.lower() for word in [...])`: some affirmative token is a
substring of the lowercased text. -/
def isAffirmative (text : String) : Bool :=
  affirmativeWords.any (fun w => hasSubstr w (lowerStr text))

/-- The result the confirmation short-circuit of
`intent_entity_extraction_node` builds (nodes.py, lines 114-123). -/
def confirmationShortCircuit (text : String) (pending : Option Val) : ExtractionResult :=
  ⟨if isAffirmative text then .confirm else .deny,
   pending, 1, "Direct confirmation/denial detection"⟩

/-- The result of the non-confirmation extraction path: the LLM is consulted;
a string result goes through `json.loads` (`jparse`), and an unparseable
string degrades to `parseFailureResult`. -/
def elicitationExtraction (jparse : String → Option ExtractionResult)
    (llm : LLMOutcome) : ExtractionResult :=
  match extractIntentAndValue llm with
  | .asDict r => r
  | .asStr s => (jparse s).getD parseFailureResult

/-- `intent_entity_extraction_node`.  The node's `try` body cannot raise in
the embedded paths (the provider catches its own exceptions and JSON failures
are caught in the node), so the `except` branch is unreachable and every
successful-transcription turn ends with `extraction_success = True` and the
attempt counter incremented (nodes.py, line 156 — the increment is
unconditional). -/
def intentExtractionNode (jparse : String → Option ExtractionResult)
    (llm : LLMOutcome) (st : GState) : GState :=
  if st.transcription_success = false then
    { st with
      extraction_success := false
      extraction_error := some "Transcription failed" }
  else
    let er :=
      if st.confirmation_state = true then
        confirmationShortCircuit (st.transcribed_text.getD "") st.current_extracted_value
      else
        elicitationExtraction jparse llm
    { st with
      extraction_result := some er
      current_extracted_value := er.extracted_value
      extraction_success := true
      extraction_attempts := st.extraction_attempts + 1 }

/-- `input_validation_node`: skipped for non-`provide_value` intents outside
confirmation; otherwise the merged data `{**field_values, current_field: v}`
is validated by instantiating the whole `UserFormData` model. -/
def inputValidationNode (st : GState) : GState :=
  if st.extraction_success = false then
    { st with
      validation_success := false
      validation_error := some "Extraction failed" }
  else if st.intentOf ≠ some .provide_value ∧ st.confirmation_state = false then
    { st with
      validation_success := true
      validation_error := none }
  else
    match st.current_extracted_value with
    | none =>
      { st with
        validation_success := false
        validation_error := some "No value was extracted" }
    | some v =>
      if validateUserFormData (dInsert st.field_values st.current_field v) then
        { st with
          validation_success := true
          validation_error := none }
      else
        let st1 : GState :=
          { st with
            validation_success := false
            validation_error := some validationErrorText }
        match st1.current_field with
        | .experience_level => { st1 with valid_options := some (.opts experienceLevels) }
        | .preferred_language => { st1 with valid_options := some (.opts preferredLanguages) }
        | .project_interests =>
          { st1 with valid_options := some (.hint "A list of 1-5 project interests, each between 2-100 characters") }
        | _ => st1

/-- `error_handling_node`: on a validation failure, append the per-field
guidance message, store the error details, and clear a pending confirmation.
The guidance never consults `extraction_attempts`. -/
def errorHandlingNode (st : GState) : GState :=
  if st.validation_success = true then st
  else
    let st1 : GState :=
      { st with
        messages := st.messages ++ [⟨.assistant, guidanceMessage st.current_field⟩]
        error_details := some ⟨errorExplanation st.current_field,
                               validExamples st.current_field,
                               guidanceMessage st.current_field⟩ }
    if st1.confirmation_state = true then { st1 with confirmation_state := false }
    else st1

/-- The ad-hoc coercion `field_mapping_node` applies to a confirmed value:
`int(...)` for the two int fields when the value is not already an int (kept
as-is when the conversion raises), comma-splitting with `strip` for a
string-valued `project_interests`. -/
def coerceOnConfirm (f : FieldName) (v : Val) : Val :=
  match f, v with
  | .age, .vStr s => (pyIntOfStr s).elim (Val.vStr s) Val.vInt
  | .availability_per_week, .vStr s => (pyIntOfStr s).elim (Val.vStr s) Val.vInt
  | .project_interests, .vStr s => .vList ((splitStr ',' s).map trimStr)
  | _, v => v

/-- `current_index < len(field_order) - 1` and the successor field:
`field_order[field_order.index(f) + 1]`, `none` for the last field. -/
def nextField : FieldName → Option FieldName
  | .full_name => some .email
  | .email => some .age
  | .age => some .occupation
  | .occupation => some .experience_level
  | .experience_level => some .preferred_language
  | .preferred_language => some .project_interests
  | .project_interests => some .availability_per_week
  | .availability_per_week => some .start_date
  | .start_date => some .additional_notes
  | .additional_notes => none

/-- `field_mapping_node` (nodes.py, lines 322-527). -/
def fieldMappingNode (st : GState) : GState :=
  if st.validation_success = false ∧ st.intentOf = some .provide_value then st
  else
    let cf := st.current_field
    if st.intentOf = some .confirm ∧ st.confirmation_state = true then
      match st.current_extracted_value with
      | none => st
      | some v0 =>
        let v := coerceOnConfirm cf v0
        let fv := dInsert st.field_values cf v
        let st1 : GState :=
          { st with
            field_values := fv
            completed_fields :=
              if listHas st.completed_fields cf = true then st.completed_fields
              else st.completed_fields ++ [cf]
            messages := st.messages ++ [⟨.assistant, savedMessage cf v⟩]
            confirmation_state := false }
        match nextField cf with
        | some nf =>
          { st1 with
            current_field := nf
            messages := st1.messages ++ [⟨.assistant, nextFieldPrompt nf⟩]
            extraction_attempts := 0 }
        | none =>
          { st1 with
            is_complete := true
            messages := st1.messages ++ [⟨.assistant, completionText (summaryAll fv)⟩] }
    else if st.intentOf = some .deny ∧ st.confirmation_state = true then
      { st with
        confirmation_state := false
        extraction_attempts := 0
        messages := st.messages ++ [⟨.assistant, denyRetryMessage cf⟩] }
    else if st.intentOf = some .provide_value ∧ st.validation_success = true then
      { st with
        confirmation_state := true
        messages := st.messages ++
          [⟨.assistant, confirmPromptMessage cf st.current_extracted_value⟩] }
    else if st.intentOf = some .request_help then
      { st with messages := st.messages ++ [⟨.assistant, helpMessage cf⟩] }
    else if st.intentOf = some .request_skip then
      if listHas requiredFields cf = false ∨ cf = .additional_notes then
        let fv := dInsert st.field_values cf .vNone
        let st1 : GState :=
          { st with
            field_values := fv
            completed_fields :=
              if listHas st.completed_fields cf = true then st.completed_fields
              else st.completed_fields ++ [cf]
            messages := st.messages ++ [⟨.assistant, skipMessage cf⟩] }
        match nextField cf with
        | some nf =>
          { st1 with
            current_field := nf
            messages := st1.messages ++ [⟨.assistant, skipNextFieldPrompt nf⟩]
            extraction_attempts := 0 }
        | none =>
          { st1 with
            is_complete := true
            messages := st1.messages ++ [⟨.assistant, completionText (summaryNonNull fv)⟩] }
      else
        { st with messages := st.messages ++ [⟨.assistant, cannotSkipMessage cf⟩] }
    else st

/-- `form_completion_check_node`: recompute completeness from the required
fields, and when complete build `final_output` from the non-null field values
and append the summary exactly once (guarded by `completion_message_added`). -/
def formCompletionCheckNode (st : GState) : GState :=
  let complete := requiredFields.all (fun f => listHas st.completed_fields f)
  let st1 : GState := { st with is_complete := complete }
  if complete = true then
    let fo := st1.field_values.filter (fun p => p.2 ≠ Val.vNone)
    let st2 : GState := { st1 with final_output := some fo }
    if st2.completion_message_added = false then
      { st2 with
        messages := st2.messages ++ [⟨.assistant, completionText (summaryFinal fo)⟩]
        completion_message_added := true }
    else st2
  else st1

/-- `end_node`. -/
def endNode (st : GState) : GState :=
  { st with workflow_complete := true }

/-- `process_user_input` (graph.py, lines 130-178): the turn driver main.py
uses.  It sequences the nodes manually: voice input, extraction, then
validation routing to `field_mapping_node` on success and to
`error_handling_node` on failure; the completion check runs only when the
current field already holds a truthy value. -/
def processUserInput (jparse : String → Option ExtractionResult)
    (llm : LLMOutcome) (workflowState : GState) (userInput : String) : GState :=
  let st := { workflowState with user_input := userInput }
  let st := if st.initialized = false then startNode st else st
  let st := voiceInputNode st
  if st.transcription_success = true then
    let st := intentExtractionNode jparse llm st
    let st :=
      if st.extraction_success = true then
        let st := inputValidationNode st
        if st.validation_success = true then fieldMappingNode st
        else errorHandlingNode st
      else st
    let st :=
      if (dLookup st.field_values st.current_field).elim false pyTruthy = true then
        formCompletionCheckNode st
      else st
    if st.is_complete = true then endNode st else st
  else st

/-- Sanity check: the tabulated `nextField` agrees with the source's
list-indexing computation over `fieldOrder`. -/
lemma nextField_matches_order (f : FieldName) :
    nextField f = fieldOrder.get? (fieldOrder.indexOf f + 1) := by
  cases f <;> rfl

/-! ## Concrete session states used by the claims -/

/-- The state right after `start_node` on a fresh session (greeting seeded,
first field `full_name`), with the per-turn keys at their read-defaults. -/
def baseState : GState :=
  { initialized := true
    user_input := ""
    transcribed_text := none
    transcription_success := false
    transcription_error := none
    current_field := .full_name
    completed_fields := []
    field_values := []
    confirmation_state := false
    extraction_attempts := 0
    is_complete := false
    messages := [⟨.assistant, greetingText⟩]
    extraction_result := none
    extraction_success := false
    extraction_error := none
    current_extracted_value := none
    validation_success := false
    validation_error := none
    valid_options := none
    error_details := none
    final_output := none
    completion_message_added := false
    workflow_complete := false }

/-- Accepted values for the nine required fields, all valid for the schema. -/
def nineDone : List (FieldName × Val) :=
  [(.full_name, .vStr "Jane Doe"), (.email, .vStr "jane.doe@example.com"),
   (.age, .vInt 30), (.occupation, .vStr "Software Developer"),
   (.experience_level, .vStr "Intermediate"), (.preferred_language, .vStr "Python"),
   (.project_interests, .vList ["Web Development", "Machine Learning"]),
   (.availability_per_week, .vInt 20), (.start_date, .vStr "2025-06-01")]

/-- The nine required field names in order. -/
def nineNames : List FieldName :=
  [.full_name, .email, .age, .occupation, .experience_level,
   .preferred_language, .project_interests, .availability_per_week, .start_date]

/-- An assistant message carrying the completion summary (every completion
block's text starts with this fixed sentence). -/
def isCompletionMsg (m : Msg) : Bool :=
  (match m.role with | .assistant => true | .user => false) &&
  "Excellent!".data.isPrefixOf m.content.data

/-! ## C1 -/

/-- A fresh session about to validate `full_name = "John Smith"`: an intent
`provide_value` extraction succeeded, no field is filled yet (so `fieldValues`
holds accepted values exactly for the fields preceding `full_name`, namely
none). -/
def c1State : GState :=
  { baseState with
    extraction_result := some ⟨.provide_value, some (.vStr "John Smith"), 1, "name given"⟩
    current_extracted_value := some (.vStr "John Smith")
    extraction_success := true }

/-- C1: the claim fails on the code.  "John Smith" satisfies the schema
constraints of `full_name`, the session's fieldValues holds values only for
the fields preceding `full_name` (none), yet the validation step returns
valid=false: `input_validation_node` instantiates the whole `UserFormData`
model, so the required fields after the current one are reported missing.
The unused `field_schema` and the comment "Validate just the single field" in
the source show single-field validation was the intent: a code bug. -/
theorem c1_validation_rejects_valid_first_field :
    fieldValid .full_name (.vStr "John Smith") = true ∧
    (inputValidationNode c1State).validation_success = false ∧
    (inputValidationNode c1State).validation_error = some validationErrorText := by
  decide

/-! ## C4 -/

/-- A session awaiting confirmation whose user turn is "yesterday". -/
def c4PreState : GState :=
  { baseState with
    confirmation_state := true
    current_extracted_value := some (.vStr "Maria Rodriguez")
    transcribed_text := some "yesterday"
    transcription_success := true }

/-- C4 counterexample: "yesterday" is not one of the affirmative tokens (not
as the whole text nor as any whitespace-separated word of it), so the claim
says the intent is Deny; the code resolves it to Confirm because the matcher
tests substring containment and "yesterday" contains "yes". -/
theorem c4_counterexample_substring_confirm :
    (intentExtractionNode (fun _ => none) (.raises "unused") c4PreState).intentOf =
      some .confirm ∧
    listHasStr affirmativeWords "yesterday" = false ∧
    (splitStr ' ' "yesterday").all (fun w => !(listHasStr affirmativeWords w)) = true :=
  ⟨rfl, rfl, rfl⟩

/-- C4 amended: with confirmationPending=true the extraction result is
deterministic lexical matching with no external backend call (the result does
not depend on the LLM outcome or the JSON parser): intent Confirm exactly when
the lowercased text CONTAINS one of the affirmative tokens as a substring,
Deny otherwise, with confidence 1 and the pending value carried through. -/
theorem c4_amended_confirmation_lexical_shortcircuit
    (jp1 jp2 : String → Option ExtractionResult) (l1 l2 : LLMOutcome)
    (st : GState) (text : String)
    (hconf : st.confirmation_state = true)
    (htr : st.transcription_success = true)
    (htext : st.transcribed_text = some text) :
    intentExtractionNode jp1 l1 st = intentExtractionNode jp2 l2 st ∧
    (intentExtractionNode jp1 l1 st).extraction_result =
      some ⟨if isAffirmative text = true then .confirm else .deny,
            st.current_extracted_value, 1, "Direct confirmation/denial detection"⟩ ∧
    (intentExtractionNode jp1 l1 st).current_extracted_value =
      st.current_extracted_value := by
  simp [intentExtractionNode, htr, hconf, htext, confirmationShortCircuit]

/-- A session awaiting confirmation whose user turn is "yes". -/
def c4WitnessState : GState :=
  { baseState with
    confirmation_state := true
    current_extracted_value := some (.vStr "John Smith")
    transcribed_text := some "yes"
    transcription_success := true }

/-- C4 witness: the amended short-circuit at the concrete turn "yes". -/
theorem c4_amended_witness :
    c4WitnessState.confirmation_state = true ∧
    c4WitnessState.transcription_success = true ∧
    (intentExtractionNode (fun _ => none) (.raises "a") c4WitnessState =
       intentExtractionNode (fun _ => some parseFailureResult) (.response "b") c4WitnessState ∧
     (intentExtractionNode (fun _ => none) (.raises "a") c4WitnessState).extraction_result =
       some ⟨if isAffirmative "yes" = true then .confirm else .deny,
             c4WitnessState.current_extracted_value, 1, "Direct confirmation/denial detection"⟩ ∧
     (intentExtractionNode (fun _ => none) (.raises "a") c4WitnessState).current_extracted_value =
       c4WitnessState.current_extracted_value) :=
  ⟨rfl, rfl,
   c4_amended_confirmation_lexical_shortcircuit (fun _ => none)
     (fun _ => some parseFailureResult) (.raises "a") (.response "b")
     c4WitnessState "yes" rfl rfl rfl⟩

/-! ## C9 -/

/-- A session that just failed validation on `age`, with a given consecutive
attempt count. -/
def c9State (n : Nat) : GState :=
  { baseState with
    current_field := .age
    validation_success := false
    validation_error := some validationErrorText
    extraction_attempts := n }

/-- C9 counterexample: the guidance produced after the third consecutive
failure on `age` is literally the same message as after the first, so it
includes no extra examples or detail beyond the earlier guidance:
`error_handling_node` never reads the attempt counter. -/
theorem c9_counterexample_no_escalation :
    (errorHandlingNode (c9State 3)).messages =
      baseState.messages ++ [⟨.assistant, guidanceMessage .age⟩] ∧
    (errorHandlingNode (c9State 1)).messages =
      baseState.messages ++ [⟨.assistant, guidanceMessage .age⟩] ∧
    (errorHandlingNode (c9State 3)).messages = (errorHandlingNode (c9State 1)).messages := by
  decide

/-- C9 amended: the guidance message appended after a failed validation
attempt is a function of the current field alone — it is the same for every
value of `extractionAttempts`, so no escalation with extra detail happens at
any threshold. -/
theorem c9_amended_guidance_ignores_attempts
    (st : GState) (n : Nat)
    (hval : st.validation_success = false) :
    (errorHandlingNode { st with extraction_attempts := n }).messages =
      st.messages ++ [⟨.assistant, guidanceMessage st.current_field⟩] := by
  simp [errorHandlingNode, hval]
  split <;> rfl

/-- C9 witness: the amended statement at `age`, attempt count 7. -/
theorem c9_amended_witness :
    (c9State 0).validation_success = false ∧
    (errorHandlingNode { c9State 0 with extraction_attempts := 7 }).messages =
      (c9State 0).messages ++ [⟨.assistant, guidanceMessage (c9State 0).current_field⟩] :=
  ⟨rfl, c9_amended_guidance_ignores_attempts (c9State 0) 7 rfl⟩

/-! ## C10 -/

/-- A session awaiting confirmation of a null pending extracted value. -/
def c10PendingState : GState :=
  { baseState with
    confirmation_state := true
    current_extracted_value := none }

def c10Run : GState :=
  processUserInput (fun _ => none) (.raises "unused") c10PendingState "yes"

/-- C10 counterexample: the claim fails on the code.  On a session with
confirmationPending=true and a null pending value, the Confirm turn "yes"
does NOT leave the session silently awaiting confirmation:
`input_validation_node` runs on confirmation turns and fails with "No value
was extracted", so the driver routes to `error_handling_node`, which appends
a guidance message and clears `confirmation_state` — an assistant message is
appended and confirmationPending is changed, contradicting the claim. -/
theorem c10_counterexample_null_pending_confirm_not_silent :
    c10PendingState.confirmation_state = true ∧
    c10Run.confirmation_state = false ∧
    c10Run.messages =
      c10PendingState.messages ++
        [⟨.user, "yes"⟩, ⟨.assistant, guidanceMessage .full_name⟩] ∧
    c10Run.validation_error = some "No value was extracted" ∧
    c10Run.field_values = [] ∧
    c10Run.current_field = .full_name :=
  ⟨rfl, rfl, rfl, rfl, rfl, rfl⟩

/-- C10 amended: on every turn of a session with confirmationPending=true and
a null pending extracted value, nothing is committed — fieldValues,
completedFields and currentField are unchanged — but the machine does not
stay silently awaiting confirmation: the lexical short-circuit still produces
the extraction result, validation fails with "No value was extracted", and
the turn is routed to the error handler, which appends the per-field guidance
message and clears confirmationPending (re-eliciting the field); the attempt
counter is incremented, not reset.  (Only `field_mapping_node` in isolation
would be a no-op here; the driver never routes this configuration to it.) -/
theorem c10_amended_null_pending_confirm_errors
    (jparse : String → Option ExtractionResult) (llm : LLMOutcome)
    (st : GState) (input : String)
    (hinit : st.initialized = true)
    (hconf : st.confirmation_state = true)
    (hval : st.current_extracted_value = none)
    (hinput : ¬ input = "")
    (hfv : dLookup st.field_values st.current_field = none) :
    (processUserInput jparse llm st input).extraction_result =
      some (confirmationShortCircuit input none) ∧
    (processUserInput jparse llm st input).validation_error =
      some "No value was extracted" ∧
    (processUserInput jparse llm st input).field_values = st.field_values ∧
    (processUserInput jparse llm st input).completed_fields = st.completed_fields ∧
    (processUserInput jparse llm st input).current_field = st.current_field ∧
    (processUserInput jparse llm st input).confirmation_state = false ∧
    (processUserInput jparse llm st input).messages =
      st.messages ++ [⟨.user, input⟩, ⟨.assistant, guidanceMessage st.current_field⟩] ∧
    (processUserInput jparse llm st input).extraction_attempts =
      st.extraction_attempts + 1 := by
  by_cases hc : st.is_complete = true <;>
    simp [processUserInput, voiceInputNode, intentExtractionNode, inputValidationNode,
          errorHandlingNode, endNode, GState.intentOf, confirmationShortCircuit,
          hinit, hconf, hval, hinput, hfv, hc]

/-- C10 witness: the amended statement at a concrete turn "yep". -/
theorem c10_amended_witness :
    c10PendingState.initialized = true ∧
    c10PendingState.confirmation_state = true ∧
    c10PendingState.current_extracted_value = none ∧
    ((processUserInput (fun _ => none) (.raises "w") c10PendingState "yep").extraction_result =
       some (confirmationShortCircuit "yep" none) ∧
     (processUserInput (fun _ => none) (.raises "w") c10PendingState "yep").validation_error =
       some "No value was extracted" ∧
     (processUserInput (fun _ => none) (.raises "w") c10PendingState "yep").field_values =
       c10PendingState.field_values ∧
     (processUserInput (fun _ => none) (.raises "w") c10PendingState "yep").completed_fields =
       c10PendingState.completed_fields ∧
     (processUserInput (fun _ => none) (.raises "w") c10PendingState "yep").current_field =
       c10PendingState.current_field ∧
     (processUserInput (fun _ => none) (.raises "w") c10PendingState "yep").confirmation_state =
       false ∧
     (processUserInput (fun _ => none) (.raises "w") c10PendingState "yep").messages =
       c10PendingState.messages ++
         [⟨.user, "yep"⟩, ⟨.assistant, guidanceMessage c10PendingState.current_field⟩] ∧
     (processUserInput (fun _ => none) (.raises "w") c10PendingState "yep").extraction_attempts =
       c10PendingState.extraction_attempts + 1) :=
  ⟨rfl, rfl, rfl,
   c10_amended_null_pending_confirm_errors (fun _ => none) (.raises "w") c10PendingState "yep"
     rfl rfl rfl (by decide) rfl⟩

/-! ## Helper lemmas -/

lemma listHas_append_self (l : List FieldName) (f : FieldName) :
    listHas (l ++ [f]) f = true := by
  induction l with
  | nil => simp [listHas]
  | cons x rest ih => simp [listHas, ih]

/-! ## C2 -/

/-- A session at `full_name` awaiting confirmation of pending value
"John Smith" after one attempt (the state End-to-end scenario 1 of the spec
reaches before the user answers "yes"). -/
def c2State : GState :=
  { baseState with
    confirmation_state := true
    current_extracted_value := some (.vStr "John Smith")
    extraction_attempts := 1 }

def c2ConfirmRun : GState :=
  processUserInput (fun _ => none) (.raises "unused") c2State "yes"

def c2DenyRun : GState :=
  processUserInput (fun _ => none) (.raises "unused") c2State "no"

/-- C2: the claim fails on the code.  With confirmationPending and pending
value "John Smith" for `full_name`, the Confirm turn "yes" commits nothing,
adds nothing to completedFields and advances nothing: `input_validation_node`
runs on confirmation turns too and rejects the whole-model validation (later
required fields missing), so the turn is routed to `error_handling_node`.
The Deny turn "no" likewise reaches the error handler, which leaves
`extraction_attempts` at 2 (incremented by extraction) instead of resetting
it to 0. -/
theorem c2_confirm_and_deny_turns_diverge :
    c2ConfirmRun.field_values = [] ∧
    c2ConfirmRun.completed_fields = [] ∧
    c2ConfirmRun.current_field = .full_name ∧
    c2ConfirmRun.confirmation_state = false ∧
    c2ConfirmRun.extraction_attempts = 2 ∧
    c2ConfirmRun.messages =
      c2State.messages ++ [⟨.user, "yes"⟩, ⟨.assistant, guidanceMessage .full_name⟩] ∧
    c2DenyRun.field_values = [] ∧
    c2DenyRun.extraction_attempts = 2 :=
  ⟨rfl, rfl, rfl, rfl, rfl, rfl, rfl, rfl⟩

/-! ## C3 -/

/-- The reasoning text of a failed extraction: the provider's fallback when
the LLM call raises, the node's fallback when `json.loads` fails. -/
def failureReason : LLMOutcome → String
  | .raises msg => "Error occurred during extraction: " ++ msg
  | .response _ => "Failed to parse LLM result"

/-- The extraction backend call fails: either it raises, or its response
string is non-parseable. -/
def extractionFailed (jparse : String → Option ExtractionResult) : LLMOutcome → Prop
  | .raises _ => True
  | .response s => jparse s = none

def c3Run : GState :=
  processUserInput (fun _ => none) (.response "I could not parse this") baseState "hello there"

/-- C3 counterexample: on a turn whose LLM response is non-parseable, the
structured result `other/null/0` is produced as claimed, but NO assistant
message is appended at all — the transcript gains only the user entry, so no
generic "trouble processing" message exists (`field_mapping_node` has no
branch for the `other` intent). -/
theorem c3_counterexample_failure_turn_silent :
    c3Run.extraction_result = some ⟨.other, none, 0, "Failed to parse LLM result"⟩ ∧
    c3Run.messages = baseState.messages ++ [⟨.user, "hello there"⟩] :=
  ⟨rfl, rfl⟩

/-- C3 amended: extraction failures (a raising call or a non-parseable
response) never raise into the caller and always degrade to the structured
result with intent Other, null value, confidence 0 and the cause as
reasoning, and the session stays resumable with its field state untouched —
but the turn appends NO assistant message (not a "trouble processing" one):
the transcript gains only the user entry, and the attempt counter is
incremented. -/
theorem c3_amended_extraction_failure_degrades
    (jparse : String → Option ExtractionResult) (llm : LLMOutcome)
    (st : GState) (input : String)
    (hinit : st.initialized = true)
    (hconf : st.confirmation_state = false)
    (hinput : ¬ input = "")
    (hfv : dLookup st.field_values st.current_field = none)
    (hfail : extractionFailed jparse llm) :
    (processUserInput jparse llm st input).extraction_result =
      some ⟨.other, none, 0, failureReason llm⟩ ∧
    (processUserInput jparse llm st input).messages = st.messages ++ [⟨.user, input⟩] ∧
    (processUserInput jparse llm st input).field_values = st.field_values ∧
    (processUserInput jparse llm st input).current_field = st.current_field ∧
    (processUserInput jparse llm st input).completed_fields = st.completed_fields ∧
    (processUserInput jparse llm st input).confirmation_state = false ∧
    (processUserInput jparse llm st input).extraction_attempts = st.extraction_attempts + 1 := by
  have hres : elicitationExtraction jparse llm = ⟨.other, none, 0, failureReason llm⟩ := by
    cases llm with
    | raises m => rfl
    | response s =>
      unfold extractionFailed at hfail
      simp [elicitationExtraction, extractIntentAndValue, hfail, parseFailureResult,
            failureReason]
  by_cases hc : st.is_complete = true <;>
    simp [processUserInput, voiceInputNode, intentExtractionNode, inputValidationNode,
          fieldMappingNode, endNode, GState.intentOf, hinit, hconf, hinput, hfv, hres, hc]

/-- C3 witness: the amended statement at a concrete raising call. -/
theorem c3_amended_witness :
    baseState.initialized = true ∧
    (¬ "hi" = "") ∧
    ((processUserInput (fun _ => none) (.raises "boom") baseState "hi").extraction_result =
       some ⟨.other, none, 0, failureReason (.raises "boom")⟩ ∧
     (processUserInput (fun _ => none) (.raises "boom") baseState "hi").messages =
       baseState.messages ++ [⟨.user, "hi"⟩] ∧
     (processUserInput (fun _ => none) (.raises "boom") baseState "hi").field_values =
       baseState.field_values ∧
     (processUserInput (fun _ => none) (.raises "boom") baseState "hi").current_field =
       baseState.current_field ∧
     (processUserInput (fun _ => none) (.raises "boom") baseState "hi").completed_fields =
       baseState.completed_fields ∧
     (processUserInput (fun _ => none) (.raises "boom") baseState "hi").confirmation_state = false ∧
     (processUserInput (fun _ => none) (.raises "boom") baseState "hi").extraction_attempts =
       baseState.extraction_attempts + 1) :=
  ⟨rfl, by decide,
   c3_amended_extraction_failure_degrades (fun _ => none) (.raises "boom") baseState "hi"
     rfl rfl (by decide) rfl trivial⟩

/-! ## C5 -/

/-- A session at the last field `additional_notes` with every other field
accepted, awaiting confirmation of the pending value "Nothing else". -/
def c5State : GState :=
  { baseState with
    current_field := .additional_notes
    completed_fields := nineNames
    field_values := nineDone
    confirmation_state := true
    current_extracted_value := some (.vStr "Nothing else")
    extraction_attempts := 1 }

def c5Run : GState :=
  processUserInput (fun _ => none) (.raises "unused") c5State "yes"

/-- C5: the claim fails on the code.  The turn that confirms the last field
transitions the session into complete=true, and TWO completion-summary
messages are appended in that single turn: one by `field_mapping_node`'s
completion block (which does not set `completion_message_added`), and a
second one by `form_completion_check_node` (whose guard sees the flag still
false).  The guard shows a single summary was the intent: a code bug. -/
theorem c5_two_completion_summaries :
    c5Run.is_complete = true ∧
    (c5Run.messages.filter isCompletionMsg).length = 2 ∧
    (c5State.messages.filter isCompletionMsg).length = 0 :=
  ⟨rfl, rfl, rfl⟩

/-! ## C6 -/

/-- C6: `field_mapping_node` handles RequestSkip as claimed.  On a required
current field it appends the cannot-skip message and leaves currentField,
completedFields and fieldValues unchanged.  On the optional field
(`additional_notes`, the only field outside the schema's required list) it
stores null, adds the field to completedFields, appends the skipped message,
and advances exactly as the confirm-success path does: `additional_notes` is
the last field, so `nextField` is none, `current_field` stays, completeness
is set and the completion summary is appended. -/
theorem c6_request_skip_behavior
    (st : GState)
    (hintent : st.intentOf = some .request_skip) :
    (st.current_field ≠ .additional_notes →
       (fieldMappingNode st).current_field = st.current_field ∧
       (fieldMappingNode st).completed_fields = st.completed_fields ∧
       (fieldMappingNode st).field_values = st.field_values ∧
       (fieldMappingNode st).messages =
         st.messages ++ [⟨.assistant, cannotSkipMessage st.current_field⟩]) ∧
    (st.current_field = .additional_notes →
       (fieldMappingNode st).field_values =
         dInsert st.field_values .additional_notes .vNone ∧
       listHas (fieldMappingNode st).completed_fields .additional_notes = true ∧
       (fieldMappingNode st).current_field =
         (nextField .additional_notes).getD st.current_field ∧
       (fieldMappingNode st).is_complete = true ∧
       (fieldMappingNode st).messages =
         st.messages ++
           [⟨.assistant, skipMessage .additional_notes⟩,
            ⟨.assistant,
             completionText (summaryNonNull (dInsert st.field_values .additional_notes .vNone))⟩]) := by
  constructor
  · intro hne
    cases hcf : st.current_field <;>
      simp_all [fieldMappingNode, hintent, hcf, listHas, requiredFields, nextField]
  · intro heq
    have hopts :
        listHas (if listHas st.completed_fields FieldName.additional_notes = true
                 then st.completed_fields
                 else st.completed_fields ++ [FieldName.additional_notes])
          FieldName.additional_notes = true := by
      split
      · assumption
      · exact listHas_append_self _ _
    simp [fieldMappingNode, hintent, heq, listHas, requiredFields, nextField, hopts]

/-- A session at the required field `occupation` with a resolved RequestSkip
intent. -/
def c6ReqState : GState :=
  { baseState with
    current_field := .occupation
    extraction_result := some ⟨.request_skip, none, 1, "skip request"⟩ }

/-- A session at the optional field `additional_notes` with a resolved
RequestSkip intent. -/
def c6OptState : GState :=
  { baseState with
    current_field := .additional_notes
    completed_fields := nineNames
    field_values := nineDone
    extraction_result := some ⟨.request_skip, none, 1, "skip request"⟩ }

/-- C6 witness: both branches of the skip handling at concrete sessions. -/
theorem c6_request_skip_witness :
    c6ReqState.intentOf = some .request_skip ∧
    c6OptState.intentOf = some .request_skip ∧
    ((fieldMappingNode c6ReqState).current_field = c6ReqState.current_field ∧
     (fieldMappingNode c6ReqState).completed_fields = c6ReqState.completed_fields ∧
     (fieldMappingNode c6ReqState).field_values = c6ReqState.field_values ∧
     (fieldMappingNode c6ReqState).messages =
       c6ReqState.messages ++ [⟨.assistant, cannotSkipMessage c6ReqState.current_field⟩]) ∧
    ((fieldMappingNode c6OptState).field_values =
       dInsert c6OptState.field_values .additional_notes .vNone ∧
     listHas (fieldMappingNode c6OptState).completed_fields .additional_notes = true ∧
     (fieldMappingNode c6OptState).current_field =
       (nextField .additional_notes).getD c6OptState.current_field ∧
     (fieldMappingNode c6OptState).is_complete = true ∧
     (fieldMappingNode c6OptState).messages =
       c6OptState.messages ++
         [⟨.assistant, skipMessage .additional_notes⟩,
          ⟨.assistant,
           completionText (summaryNonNull (dInsert c6OptState.field_values .additional_notes .vNone))⟩]) :=
  ⟨rfl, rfl,
   (c6_request_skip_behavior c6ReqState rfl).1 (by decide),
   (c6_request_skip_behavior c6OptState rfl).2 rfl⟩

/-! ## C7 -/

def c7Jparse : String → Option ExtractionResult :=
  fun s => if s = "OTHER" then some ⟨.other, none, 1, "unrecognized input"⟩ else none

def c7Run : GState :=
  processUserInput c7Jparse (.response "OTHER") baseState "gibberish words"

/-- C7 counterexample: a turn that resolves to intent Other increments
`extraction_attempts` from 0 to 1 — the increment in
`intent_entity_extraction_node` is unconditional, so Other turns do alter the
counter. -/
theorem c7_counterexample_other_turn_increments :
    c7Run.intentOf = some .other ∧
    baseState.extraction_attempts = 0 ∧
    c7Run.extraction_attempts = 1 :=
  ⟨rfl, rfl, rfl⟩

/-- C7 amended: `extraction_attempts` is incremented by the extraction node
on every successfully transcribed turn regardless of intent; in particular an
elicitation turn that resolves to Other ends with the counter increased by
one, not unchanged (the counter is only ever reset by the deny branch and by
field advancement in `field_mapping_node`). -/
theorem c7_amended_other_turn_increments
    (jparse : String → Option ExtractionResult) (llm : LLMOutcome)
    (st : GState) (input : String)
    (hinit : st.initialized = true)
    (hconf : st.confirmation_state = false)
    (hinput : ¬ input = "")
    (hfv : dLookup st.field_values st.current_field = none)
    (hother : (elicitationExtraction jparse llm).intent = .other) :
    (processUserInput jparse llm st input).extraction_attempts =
      st.extraction_attempts + 1 := by
  by_cases hc : st.is_complete = true <;>
    simp [processUserInput, voiceInputNode, intentExtractionNode, inputValidationNode,
          fieldMappingNode, endNode, GState.intentOf, hinit, hconf, hinput, hfv, hother, hc]

/-- C7 witness: the amended increment at a concrete Other turn. -/
theorem c7_amended_witness :
    baseState.initialized = true ∧
    (elicitationExtraction c7Jparse (.response "OTHER")).intent = .other ∧
    (processUserInput c7Jparse (.response "OTHER") baseState "what is this").extraction_attempts =
      baseState.extraction_attempts + 1 :=
  ⟨rfl, rfl,
   c7_amended_other_turn_increments c7Jparse (.response "OTHER") baseState "what is this"
     rfl rfl (by decide) rfl rfl⟩

/-! ## C8 -/

def c8Jparse : String → Option ExtractionResult :=
  fun s => if s = "SKIP" then some ⟨.request_skip, none, 1, "user asked to skip"⟩ else none

/-- A session at the last field `additional_notes` with the nine required
fields accepted, about to skip. -/
def c8State : GState :=
  { baseState with
    current_field := .additional_notes
    completed_fields := nineNames
    field_values := nineDone }

def c8Run : GState :=
  processUserInput c8Jparse (.response "SKIP") c8State "skip please"

/-- C8 counterexample: a session that becomes complete by skipping the
optional last field ends the turn with `final_output` still unset (the
driver's completion-check guard tests the truthiness of the value stored for
the current field, and the skipped null is falsy), although the non-null
restriction of fieldValues is the nine accepted values. -/
theorem c8_counterexample_skip_completion_without_final_output :
    c8Run.is_complete = true ∧
    c8Run.final_output = none ∧
    c8Run.field_values.filter (fun p => p.2 ≠ Val.vNone) = nineDone :=
  ⟨rfl, rfl, rfl⟩

/-- C8 amended: whenever `form_completion_check_node` actually runs on a
session whose completedFields cover the required fields, it sets
complete=true and `final_output` to exactly the restriction of fieldValues to
the non-null entries; but a session completed by skipping the optional last
field does not run the check in that turn, leaving `final_output` unset. -/
theorem c8_amended_completion_check_builds_restriction
    (st : GState)
    (hreq : requiredFields.all (fun f => listHas st.completed_fields f) = true) :
    (formCompletionCheckNode st).is_complete = true ∧
    (formCompletionCheckNode st).final_output =
      some (st.field_values.filter (fun p => p.2 ≠ Val.vNone)) := by
  by_cases hm : st.completion_message_added = false <;>
    simp [formCompletionCheckNode, hreq, hm]

/-- A complete session (all ten fields, notes skipped as null) on which the
completion check runs. -/
def c8CheckState : GState :=
  { baseState with
    completed_fields := nineNames ++ [.additional_notes]
    field_values := nineDone ++ [(.additional_notes, Val.vNone)] }

/-- C8 witness: the amended statement at a concrete complete session. -/
theorem c8_amended_witness :
    requiredFields.all (fun f => listHas c8CheckState.completed_fields f) = true ∧
    ((formCompletionCheckNode c8CheckState).is_complete = true ∧
     (formCompletionCheckNode c8CheckState).final_output =
       some (c8CheckState.field_values.filter (fun p => p.2 ≠ Val.vNone))) :=
  ⟨rfl, c8_amended_completion_check_builds_restriction c8CheckState rfl⟩

end VoiceChatBot
